import Mathlib

set_option maxRecDepth 100000

/-!
Verification development for the Accu-Chek Performa Nano serial driver
(accuchek.py).  The Python module is shallowly embedded: bytes become
lists of naturals (each < 256 on the wire), the serial line becomes an
explicit list of incoming bytes consumed from the front, transmitted
bytes are collected in explicit transcripts, and Python exceptions
become an error type.  Statements are proved about these definitions.
-/

/-- Python exceptions that the embedded code can raise. -/
inductive PyErr where
  | valueError
  | typeError
  | attributeError
  | indexError
  | timeoutError
  deriving DecidableEq, Repr

/-! ## Protocol control bytes (class constants of AccuChekPerformaNano) -/

def STX : Nat := 0x02
def ETX : Nat := 0x03
def EOT : Nat := 0x04
def ACK : Nat := 0x06
def TAB : Nat := 0x09
def NAK : Nat := 0x15
def CR : Nat := 0x0D

/-! ## Checksum Unit (_checksum, lines 257-262) -/

/-- The accumulator loop of _checksum: for byte in data: checksum ^= byte. -/
def checksumAux (acc : Nat) : List Nat → Nat
  | [] => acc
  | b :: rest => checksumAux (acc ^^^ b) rest

/-- Model of _checksum(data): seed 110, XOR every byte of data into the accumulator. -/
def checksum (data : List Nat) : Nat := checksumAux 110 data

/-! ## Small helpers for Python int() parsing and bytes.strip -/

/-- Model of int(s, 16) on a byte string: every byte must be an ASCII hex digit
(int() also tolerates surrounding whitespace and a sign, which the
protocol never produces and which we do not model). Empty string fails. -/
def pyIntHex (l : List Nat) : Option Nat :=
  if l = [] then none
  else
    l.foldl
      (fun acc c =>
        acc.bind fun a =>
          if 0x30 ≤ c ∧ c ≤ 0x39 then some (a * 16 + (c - 0x30))
          else if 0x41 ≤ c ∧ c ≤ 0x46 then some (a * 16 + (c - 55))
          else if 0x61 ≤ c ∧ c ≤ 0x66 then some (a * 16 + (c - 87))
          else none)
      (some 0)

/-- Model of int(s) on a byte string of ASCII decimal digits (same caveat as pyIntHex). -/
def pyIntDec (l : List Nat) : Option Nat :=
  if l = [] then none
  else
    l.foldl
      (fun acc c =>
        acc.bind fun a =>
          if 0x30 ≤ c ∧ c ≤ 0x39 then some (a * 10 + (c - 0x30)) else none)
      (some 0)

/-- Model of data.strip(FIELD_SEPARATOR): drop separator bytes from both ends. -/
def stripSep (l : List Nat) : List Nat :=
  ((l.dropWhile (· = TAB)).reverse.dropWhile (· = TAB)).reverse

/-! ## Packet Receiver (_receive_packet, lines 96-154) -/

/-- The packet validation attempt of _receive_packet (the try block,
lines 111-125): 2 ASCII-hex length bytes, length data bytes, 2 ASCII-hex
checksum bytes matching the checksum of the data.  Any of the raised
exceptions (ParseError, int() ValueError, and the TypeError raised while
formatting the message of the third ParseError) is caught uniformly by
the except clause, so a single failure outcome (none) is faithful. -/
def validatePacket (packet : List Nat) : Option (List Nat) :=
  if packet.length < 2 then none
  else
    match pyIntHex (packet.take 2) with
    | none => none
    | some len =>
      if packet.length < 2 + len then none
      else
        let data := (packet.drop 2).take len
        if packet.length < 2 + len + 2 then none
        else
          match pyIntHex ((packet.drop (2 + len)).take 2) with
          | none => none
          | some cks => if cks = checksum data then some data else none

/-- Mutable state of one _receive_packet call: the working buffer
(packet), the in_packet flag, the remaining retry budget, the _data list
of validated blocks, the transcript of control bytes sent back on the
line, and a count of caught validation failures.  The expectAck flag
marks the point right after a validated end-of-transmission packet,
where the code performs one extra blocking read that must yield ACK; it
lets the loop below consume that byte on its next iteration. -/
structure RSt where
  packet : List Nat
  inPacket : Bool
  retries : Nat
  blocks : List (List Nat)
  sent : List Nat
  fails : Nat
  expectAck : Bool
  deriving DecidableEq, Repr

/-- How one _receive_packet call can end. -/
inductive RcvRes where
  /-- return _data after an end-of-transmission packet was acknowledged. -/
  | ok (blocks : List (List Nat))
  /-- the bare return once the retry budget is exhausted (Python None). -/
  | noResult
  /-- TimeoutError: the line produced no byte within the timeout. -/
  | timeout
  /-- TypeError raised by formatting an out-of-packet byte into the
  diagnostic message at line 154 (percent-X applied to a bytes value). -/
  | typeError
  deriving DecidableEq, Repr

/-- Initial state of a _receive_packet call (retry budget 5). -/
def recvStart : RSt :=
  { packet := [], inPacket := false, retries := 5, blocks := [], sent := [],
    fails := 0, expectAck := false }

/-- The state change of a caught validation failure (the except clause,
lines 143-150): if the budget is nonzero, decrement it and send a NAK;
the failure counter is a ghost field recording the number of caught
exceptions. -/
def failState (st : RSt) : RSt :=
  if st.retries ≠ 0 then
    { st with retries := st.retries - 1, sent := st.sent ++ [NAK],
              fails := st.fails + 1, expectAck := false }
  else { st with fails := st.fails + 1, expectAck := false }

/-- The byte-processing loop of _receive_packet over the incoming byte
stream.  STX only sets in_packet (the buffer is not cleared).  ETX/EOT
always attempt validation, whatever in_packet is.  On success an ACK is
sent and the stripped data block appended; for EOT one further byte is
read (the expectAck state) and must be ACK, otherwise the raised error
is caught like a validation failure.  On a caught failure with zero
budget the call returns None.  A non-marker byte is appended when
in_packet, and otherwise the attempted diagnostic log raises TypeError
(percent-X formatting of a bytes value, line 154).  An exhausted stream
at a blocking read is the TimeoutError of line 104 (when it happens at
the post-EOT read, the empty read is caught as a failure first). -/
def receiveLoop : List Nat → RSt → RSt × RcvRes
  | [], st =>
    if st.expectAck then
      if st.retries ≠ 0 then (failState st, .timeout)
      else (failState st, .noResult)
    else (st, .timeout)
  | b :: rest, st =>
    if st.expectAck then
      if b = ACK then (st, .ok st.blocks)
      else if st.retries ≠ 0 then receiveLoop rest (failState st)
      else (failState st, .noResult)
    else if b = STX then
      receiveLoop rest { st with inPacket := true }
    else if b = ETX ∨ b = EOT then
      match validatePacket st.packet with
      | some data =>
        let st1 := { st with sent := st.sent ++ [ACK], blocks := st.blocks ++ [stripSep data] }
        if b = EOT then
          receiveLoop rest { st1 with expectAck := true }
        else
          receiveLoop rest { st1 with packet := [], inPacket := false }
      | none =>
        if st.retries ≠ 0 then receiveLoop rest (failState st)
        else (failState st, .noResult)
    else if st.inPacket then
      receiveLoop rest { st with packet := st.packet ++ [b] }
    else
      (st, .typeError)

/-- Model of _receive_packet on a given incoming byte stream. -/
def receive_packet (input : List Nat) : RSt × RcvRes :=
  receiveLoop input recvStart

example : receive_packet [ETX, ETX, ETX, ETX, ETX, ETX] =
    ({ packet := [], inPacket := false, retries := 0, blocks := [],
       sent := [NAK, NAK, NAK, NAK, NAK], fails := 6, expectAck := false },
      .noResult) := by decide

example :
    receive_packet [STX, 0x30, 0x30, 0x36, 0x45, EOT, ACK] =
    ({ packet := [0x30, 0x30, 0x36, 0x45], inPacket := true, retries := 5,
       blocks := [[]], sent := [ACK], fails := 0, expectAck := true },
      .ok [[]]) := by decide

/-! ## Command Handshake (_send_command, lines 83-94) -/

deriving instance DecidableEq for Except

/-- Model of str(n) as a list of ASCII digit bytes. -/
def natDigits (n : Nat) : List Nat := (Nat.toDigits 10 n).map Char.toNat

/-- Outcome of a _send_command call: the bytes transmitted on the line
(the joined command stream followed by the carriage return), the result
of the call, and the bytes left unread on the line. -/
structure CmdOut where
  sent : List Nat
  result : Except PyErr Bool
  rest : List Nat
  deriving DecidableEq, Repr

/-- The byte stream of a command: the opcode and fields joined by the
field separator (no trailing separator). -/
def joinCmd (cmd : List Nat) (fields : List (List Nat)) : List Nat :=
  List.intercalate [TAB] (cmd :: fields)

/-- Model of _send_command(cmd, *fields) run against an incoming byte stream.
Every command byte is sent and its echo read (one byte consumed per
command byte; the echoes are discarded unvalidated), then the carriage
return is sent and one response byte read.  ACK yields True, NAK False;
any other value (or an empty read) reaches the logger.warning whose
percent-X formatting of a bytes value raises TypeError (line 91). -/
def send_command (cmd : List Nat) (fields : List (List Nat)) (stream : List Nat) : CmdOut :=
  let bytes := joinCmd cmd fields
  let rest := stream.drop bytes.length
  let result : Except PyErr Bool :=
    match rest.head? with
    | some b => if b = ACK then .ok true else if b = NAK then .ok false else .error .typeError
    | none => .error .typeError
  { sent := bytes ++ [CR], result := result, rest := rest.drop 1 }

/-- The response byte a _send_command call inspects: the first byte of
the stream after the echoes of the command bytes. -/
def respByte (cmd : List Nat) (fields : List (List Nat)) (stream : List Nat) : Option Nat :=
  (stream.drop (joinCmd cmd fields).length).head?

/-! ## Packet Sender (_send_packet, lines 156-186) -/

/-- Model of str(n).zfill(2): left-pad the decimal digits with ASCII zeros to
width two. -/
def zfill2 (l : List Nat) : List Nat :=
  if l.length < 2 then List.replicate (2 - l.length) 0x30 ++ l else l

/-- One uppercase ASCII hex digit. -/
def hexDigitU (d : Nat) : Nat := if d < 10 then 0x30 + d else 55 + d

/-- Model of percent-02X formatting: at least two uppercase hex digits. -/
def hex2U (n : Nat) : List Nat :=
  if n < 256 then [hexDigitU (n / 16), hexDigitU (n % 16)]
  else zfill2 ((Nat.toDigits 16 n).map (fun c => hexDigitU (c.toNat - if c.toNat ≤ 0x39 then 0x30 else 87)))

/-- The framed packet _send_packet builds when fields are given:
STX, two decimal ASCII length digits, the separator-bracketed data,
two uppercase hex checksum digits, EOT.  With no fields the packet is
empty and nothing is transmitted for it. -/
def packetBytes : List (List Nat) → List Nat
  | [] => []
  | f :: fs =>
    let data := TAB :: List.intercalate [TAB] (f :: fs) ++ [TAB]
    STX :: (zfill2 (natDigits data.length) ++ data ++ hex2U (checksum data) ++ [EOT])

/-- The retry loop of _send_packet (lines 165-180), transcribing every
_send call.  Each iteration decrements the budget, transmits the packet
when non-empty, and reads one byte: NAK continues the loop, ACK causes
an application-level ACK to be sent and the loop to CONTINUE (there is
no break on this path, so the packet is retransmitted while budget
remains), and any other byte (or an empty read) reaches the
logger.warning of line 178 whose percent-X formatting of a bytes value
raises TypeError before the NAK send and break below it. -/
def sendLoop (pkt : List Nat) : Nat → List Nat → List (List Nat) →
    List (List Nat) × Except PyErr (List Nat)
  | 0, stream, acc => (acc, .ok stream)
  | r + 1, stream, acc =>
    let acc1 := if pkt = [] then acc else acc ++ [pkt]
    match stream with
    | [] => (acc1, .error .typeError)
    | b :: rest =>
      if b = NAK then sendLoop pkt r rest acc1
      else if b = ACK then sendLoop pkt r rest (acc1 ++ [[ACK]])
      else (acc1, .error .typeError)

/-- Outcome of a _send_packet call: the list of _send transmissions
(each one the byte string of a single _send call) and the result. -/
structure SendOut where
  sends : List (List Nat)
  result : Except PyErr Bool
  deriving DecidableEq, Repr

/-- Model of _send_packet(*fields) run against an incoming byte stream: the retry
loop with budget 5, then one further byte read as the operation result;
True iff that byte is ACK, False for NAK, and for any other value (or an
empty read) the logger.warning of line 185 raises TypeError. -/
def send_packet (fields : List (List Nat)) (stream : List Nat) : SendOut :=
  match sendLoop (packetBytes fields) 5 stream [] with
  | (sends, .error e) => { sends := sends, result := .error e }
  | (sends, .ok rest) =>
    match rest.head? with
    | some b =>
      if b = ACK then { sends := sends, result := .ok true }
      else if b = NAK then { sends := sends, result := .ok false }
      else { sends := sends, result := .error .typeError }
    | none => { sends := sends, result := .error .typeError }

example :
    send_packet [[0x41]] [ACK, ACK, ACK, ACK, ACK, ACK] =
    { sends := [packetBytes [[0x41]], [ACK], packetBytes [[0x41]], [ACK],
                packetBytes [[0x41]], [ACK], packetBytes [[0x41]], [ACK],
                packetBytes [[0x41]], [ACK]],
      result := .ok true } := by decide

example : packetBytes [[0x41]] = [2, 0x30, 0x33, 9, 0x41, 9, 0x32, 0x46, 4] := by decide

/-! ## IEEE binary64 model for the glucose conversion

get_readings computes Decimal(int(raw) * 0.0555).quantize(Decimal(10)**-1)
(line 234).  The literal 0.0555 is a binary64 value, the product is a
binary64 multiplication, Decimal of a float is exact, and quantize
rounds to one decimal place with the default ROUND_HALF_EVEN.  We model
binary64 rounding of a positive rational exactly (round to nearest, ties
to even, 53-bit significand; the values involved are in the normal
range, so subnormals and overflow are not modelled). -/

/-- An unnormalised exact fraction (denominator kept positive by all
constructions below).  The rational operations of the ambient library do
not evaluate inside the kernel, so the embedding carries its own exact
arithmetic. -/
structure PreQ where
  num : ℤ
  den : ℤ
  deriving DecidableEq, Repr

/-- Exact product of fractions. -/
def pqMul (a b : PreQ) : PreQ := ⟨a.num * b.num, a.den * b.den⟩

/-- Strict comparison of fractions with positive denominators. -/
def pqLt (a b : PreQ) : Bool := a.num * b.den < b.num * a.den

/-- Round a fraction with positive denominator to the nearest integer,
ties to even. -/
def rhe (a : PreQ) : ℤ :=
  let n := a.num.fdiv a.den
  let r := a.num - n * a.den
  if 2 * r < a.den then n
  else if a.den < 2 * r then n + 1
  else if n % 2 = 0 then n
  else n + 1

/-- Fuel-bounded floor base-2 logarithm. -/
def natLog2F : Nat → Nat → Nat
  | 0, _ => 0
  | fuel + 1, n => if 2 ≤ n then natLog2F fuel (n / 2) + 1 else 0

/-- Floor base-2 logarithm of a natural number. -/
def natLog2 (n : Nat) : Nat := natLog2F n n

/-- Integer powers of two as fractions. -/
def pq2 (z : ℤ) : PreQ :=
  if 0 ≤ z then ⟨((2 ^ z.toNat : Nat) : ℤ), 1⟩ else ⟨1, ((2 ^ (-z).toNat : Nat) : ℤ)⟩

/-- The exponent e with 2 ^ e ≤ a < 2 ^ (e + 1), for a > 0. -/
def ilog2p (a : PreQ) : ℤ :=
  let c : ℤ := (natLog2 a.num.toNat : ℤ) - (natLog2 a.den.toNat : ℤ)
  if pqLt a (pq2 (c - 1)) then c - 2
  else if pqLt a (pq2 c) then c - 1
  else if pqLt a (pq2 (c + 1)) then c
  else c + 1

/-- Round a positive fraction to the nearest binary64 value (normal
range: round to nearest, ties to even, 53-bit significand), as an exact
fraction. -/
def flD (a : PreQ) : PreQ :=
  if a.num ≤ 0 then ⟨0, 1⟩
  else
    let e := ilog2p a
    pqMul ⟨rhe (pqMul a (pq2 (52 - e))), 1⟩ (pq2 (e - 52))

/-- The exact value of the float literal 0.0555 (binary64). -/
def lit0555 : PreQ := flD ⟨111, 2000⟩

/-- Model of Decimal(raw * 0.0555).quantize(Decimal(10)**-1) with the default
ROUND_HALF_EVEN: the int is converted to binary64, multiplied by the
binary64 literal with binary64 rounding, taken exactly into Decimal, and
quantized to one decimal place; the result is the exact rational value
of that Decimal. -/
def pyGlucose (raw : Nat) : ℚ :=
  let p := flD (pqMul (flD ⟨(raw : ℤ), 1⟩) lit0555)
  mkRat (rhe (pqMul p ⟨10, 1⟩)) 10

example : lit0555 = ⟨7998392938210001, 144115188075855872⟩ := by decide
example : flD (pqMul (flD ⟨100, 1⟩) lit0555) = ⟨6248744482976563, 1125899906842624⟩ := by
  decide
example : pyGlucose 100 = mkRat 11 2 := by decide

/-! ## The strptime model

get_readings parses (fields[1]+fields[2]).decode() with the format
'%H%M%y%m%d' (line 235).  CPython strptime compiles each directive to a
regular expression group ('2[0-3]|[0-1]d|d' for H, '[0-5]d|d' for M,
'dd' for y, '1[0-2]|0[1-9]|[1-9]' for m, '3[0-1]|[1-2]d|0[1-9]|[1-9]|
space[1-9]' for d), matches the concatenation against the data with the
usual leftmost preference and backtracking, raises ValueError if the
match fails or leaves unconverted data, pivots the two-digit year at 69,
and builds a datetime (which validates the day against the month). -/

/-- The five numeric directives of the format '%H%M%y%m%d'. -/
inductive Dir where
  | H | M | y | m | d
  deriving DecidableEq, Repr

/-- ASCII decimal digit test. -/
def isDig (c : Nat) : Bool := 0x30 ≤ c ∧ c ≤ 0x39

/-- Digit value of an ASCII byte. -/
def digVal (c : Nat) : Nat := c - 0x30

/-- The candidate parses of one directive on a byte list, in the
preference order of the compiled regular expression alternatives. -/
def dirAlts : Dir → List Nat → List (Nat × List Nat)
  | .H, a :: b :: r =>
    (if a = 0x32 ∧ 0x30 ≤ b ∧ b ≤ 0x33 then [(20 + digVal b, r)] else []) ++
    (if (a = 0x30 ∨ a = 0x31) ∧ isDig b then [(digVal a * 10 + digVal b, r)] else []) ++
    (if isDig a then [(digVal a, b :: r)] else [])
  | .H, a :: r => if isDig a then [(digVal a, r)] else []
  | .H, [] => []
  | .M, a :: b :: r =>
    (if 0x30 ≤ a ∧ a ≤ 0x35 ∧ isDig b then [(digVal a * 10 + digVal b, r)] else []) ++
    (if isDig a then [(digVal a, b :: r)] else [])
  | .M, a :: r => if isDig a then [(digVal a, r)] else []
  | .M, [] => []
  | .y, a :: b :: r => if isDig a ∧ isDig b then [(digVal a * 10 + digVal b, r)] else []
  | .y, _ => []
  | .m, a :: b :: r =>
    (if a = 0x31 ∧ 0x30 ≤ b ∧ b ≤ 0x32 then [(10 + digVal b, r)] else []) ++
    (if a = 0x30 ∧ 0x31 ≤ b ∧ b ≤ 0x39 then [(digVal b, r)] else []) ++
    (if 0x31 ≤ a ∧ a ≤ 0x39 then [(digVal a, b :: r)] else [])
  | .m, a :: r => if 0x31 ≤ a ∧ a ≤ 0x39 then [(digVal a, r)] else []
  | .m, [] => []
  | .d, a :: b :: r =>
    (if a = 0x33 ∧ (b = 0x30 ∨ b = 0x31) then [(30 + digVal b, r)] else []) ++
    (if (a = 0x31 ∨ a = 0x32) ∧ isDig b then [(digVal a * 10 + digVal b, r)] else []) ++
    (if a = 0x30 ∧ 0x31 ≤ b ∧ b ≤ 0x39 then [(digVal b, r)] else []) ++
    (if 0x31 ≤ a ∧ a ≤ 0x39 then [(digVal a, b :: r)] else []) ++
    (if a = 0x20 ∧ 0x31 ≤ b ∧ b ≤ 0x39 then [(digVal b, r)] else [])
  | .d, a :: r => if 0x31 ≤ a ∧ a ≤ 0x39 then [(digVal a, r)] else []
  | .d, [] => []

/-- Backtracking match of a directive list against a byte list (the
leftmost-preference match of the concatenated regular expression). -/
def matchDirs : List Dir → List Nat → Option (List Nat × List Nat)
  | [], l => some ([], l)
  | dir :: ds, l =>
    (dirAlts dir l).findSome? fun p =>
      (matchDirs ds p.2).map fun q => (p.1 :: q.1, q.2)

/-- A parsed timestamp (seconds default to 0 under '%H%M%y%m%d'). -/
structure DateTime where
  year : Nat
  month : Nat
  day : Nat
  hour : Nat
  minute : Nat
  second : Nat
  deriving DecidableEq, Repr

/-- Days in a month, with the Gregorian leap rule, as the datetime
constructor validates them. -/
def daysInMonth (year month : Nat) : Nat :=
  if month = 2 then
    if year % 4 = 0 ∧ (year % 100 ≠ 0 ∨ year % 400 = 0) then 29 else 28
  else if month = 4 ∨ month = 6 ∨ month = 9 ∨ month = 11 then 30
  else 31

/-- Model of datetime.strptime(s, '%H%M%y%m%d'): none models the ValueError on a
failed or incomplete match or an invalid day-of-month. -/
def strptimeHMymd (s : List Nat) : Option DateTime :=
  match matchDirs [Dir.H, Dir.M, Dir.y, Dir.m, Dir.d] s with
  | some ([h, mi, yy, mo, dd], []) =>
    let year := if yy ≤ 68 then 2000 + yy else 1900 + yy
    if dd ≤ daysInMonth year mo then
      some { year := year, month := mo, day := dd, hour := h, minute := mi, second := 0 }
    else none
  | _ => none

example :
    strptimeHMymd ([0x31, 0x32, 0x30, 0x30] ++ [0x32, 0x30, 0x30, 0x31, 0x30, 0x31]) =
    some { year := 2020, month := 1, day := 1, hour := 12, minute := 0, second := 0 } := by
  decide

example :
    strptimeHMymd ([0x31, 0x32, 0x30, 0x30, 0x30, 0x30] ++
      [0x32, 0x30, 0x30, 0x31, 0x30, 0x31]) = none := by decide

/-! ## Readings decoding (get_readings, lines 228-238) -/

/-- One decoded reading: glucose Decimal value, timestamp, flags. -/
structure Reading where
  glucose : ℚ
  timestamp : DateTime
  flags : Nat
  deriving DecidableEq, Repr

/-- The body of the per-entry loop of get_readings (lines 233-237): the
block splits on the field separator; fields 0-3 give the raw glucose
integer, time digits, date digits and hex flags.  Missing fields raise
IndexError, failed int() or strptime() raise ValueError. -/
def decode_reading (block : List Nat) : Except PyErr Reading :=
  let fields := block.splitOn TAB
  match pyIntDec (fields.headD []) with
  | none => .error .valueError
  | some raw =>
    match fields.get? 1, fields.get? 2 with
    | some f1, some f2 =>
      match strptimeHMymd (f1 ++ f2) with
      | none => .error .valueError
      | some ts =>
        match fields.get? 3 with
        | none => .error .indexError
        | some f3 =>
          match pyIntHex f3 with
          | none => .error .valueError
          | some flags => .ok { glucose := pyGlucose raw, timestamp := ts, flags := flags }
    | _, _ => .error .indexError

/-! ## Device Facade (lines 188-255) -/

/-- The shared shape of every single-block read operation of the facade
(get_and_clear_status, get_meter_name, get_meter_number,
get_serial_number, get_current_date, get_current_time, get_meter_units,
get_reading_count): handshake the opcode and fields; on NAK return None;
on ACK run the Packet Receiver and index its first block.  When the
receiver returns None (retry budget exhausted), the subscript data[0] on
None raises TypeError; a receiver TimeoutError or TypeError propagates. -/
def facadeFirstBlock (cmd : List Nat) (fields : List (List Nat)) (stream : List Nat) :
    Except PyErr (Option (List Nat)) :=
  let c := send_command cmd fields stream
  match c.result with
  | .error e => .error e
  | .ok false => .ok none
  | .ok true =>
    match receive_packet c.rest with
    | (_, .ok blocks) =>
      match blocks.head? with
      | some b => .ok (some b)
      | none => .error .indexError
    | (_, .noResult) => .error .typeError
    | (_, .timeout) => .error .timeoutError
    | (_, .typeError) => .error .typeError

/-- get_reading_count (lines 223-226): the shared read pattern with the
GET_READING_COUNT opcode, then int() on the first block. -/
def get_reading_count (stream : List Nat) : Except PyErr (Option Nat) :=
  match facadeFirstBlock [0x60] [] stream with
  | .error e => .error e
  | .ok none => .ok none
  | .ok (some b) =>
    match pyIntDec b with
    | some n => .ok (some n)
    | none => .error .valueError

/-- The device status codes of the AccuChekStatus enumeration. -/
def statusCodes : List Nat :=
  [0, 240, 241, 242, 246, 247, 248, 249, 250, 251, 252, 253, 254, 255]

/-- get_and_clear_status (lines 188-191): the shared read pattern with
the GET_AND_CLEAR_STATUS opcode, then a hex parse of the first block
mapped into the status enumeration (an unmapped code raises ValueError). -/
def get_and_clear_status (stream : List Nat) : Except PyErr (Option Nat) :=
  match facadeFirstBlock [0x0B] [] stream with
  | .error e => .error e
  | .ok none => .ok none
  | .ok (some b) =>
    match pyIntHex b with
    | some n => if n ∈ statusCodes then .ok (some n) else .error .valueError
    | none => .error .valueError

/-- The bytes get_readings(start, end) hands to _send_command: the
GET_READINGS opcode and the decimal digit strings of the two indices
(lines 228-229); there is no validation of the indices. -/
def get_readings_sent (start fin : Nat) : List Nat :=
  (send_command [0x61] [natDigits start, natDigits fin] []).sent

/-- get_readings (lines 228-238): handshake, then decode every received
block in order; when the receiver returns None, the for loop over None
raises TypeError. -/
def get_readings (start fin : Nat) (stream : List Nat) :
    Except PyErr (Option (List Reading)) :=
  let c := send_command [0x61] [natDigits start, natDigits fin] stream
  match c.result with
  | .error e => .error e
  | .ok false => .ok none
  | .ok true =>
    match receive_packet c.rest with
    | (_, .ok blocks) =>
      match blocks.mapM decode_reading with
      | .ok entries => .ok (some entries)
      | .error e => .error e
    | (_, .noResult) => .error .typeError
    | (_, .timeout) => .error .timeoutError
    | (_, .typeError) => .error .typeError

/-- A Python datetime.time value. -/
structure PyTime where
  hour : Nat
  minute : Nat
  second : Nat
  deriving DecidableEq, Repr

/-- set_current_time (lines 245-248).  Its first statement evaluates
time.value('%H%M%S'), an attribute lookup of value on the class time
imported from datetime; the class has no such attribute, so every call
raises AttributeError before any handshake or packet exchange. -/
def set_current_time (_v : PyTime) : Except PyErr (Option Bool) :=
  .error .attributeError

/-- A Python datetime.date value. -/
structure PyDate where
  year : Nat
  month : Nat
  day : Nat
  deriving DecidableEq, Repr

/-- Model of value.strftime('%y%m%d'): two zero-padded digits each of year mod
100, month and day. -/
def dateDigits (v : PyDate) : List Nat :=
  zfill2 (natDigits (v.year % 100)) ++ zfill2 (natDigits v.month) ++ zfill2 (natDigits v.day)

/-- set_current_date (lines 240-243): encode the date, handshake
SET_METER_SETTING with the date field selector, and on ACK send the
encoded digits as the single field of a packet. -/
def set_current_date (v : PyDate) (stream : List Nat) : Except PyErr (Option Bool) :=
  let c := send_command [0x0C] [[0x31]] stream
  match c.result with
  | .error e => .error e
  | .ok false => .ok none
  | .ok true =>
    match (send_packet [dateDigits v] c.rest).result with
    | .error e => .error e
    | .ok b => .ok (some b)

/-! ## Claims -/

lemma checksumAux_eq_foldl (l : List Nat) :
    ∀ acc : Nat, checksumAux acc l = l.foldl (fun a b => a ^^^ b) acc := by
  induction l with
  | nil => intro acc; rfl
  | cons b r ih => intro acc; simp only [checksumAux, List.foldl]; exact ih (acc ^^^ b)

/-- Claim C9: for every byte sequence the checksum equals the left fold
of XOR over the bytes from the seed 110, and the checksum of the empty
sequence is 0x6E; the definition is a pure function. -/
theorem checksum_fold_spec :
    (∀ data : List Nat, checksum data = data.foldl (fun a b => a ^^^ b) 110) ∧
    checksum [] = 0x6E :=
  ⟨fun data => checksumAux_eq_foldl data 110, rfl⟩

/-- Claim C4 counterexample: after the byte sequence STX, 0x41, STX the
working buffer still holds 0x41, so the second start marker did not
clear it as the claim states. -/
theorem stx_keeps_stale_buffer :
    (receive_packet [STX, 0x41, STX]).1.packet = [0x41] ∧
    (receive_packet [STX, 0x41, STX]).1.inPacket = true ∧
    ([0x41] : List Nat) ≠ [] := by decide

/-- Claim C4 amended: processing a start-marker byte transitions the
receiver to IN_PACKET but leaves the working buffer unchanged; bytes
accumulated before the new start marker are retained, not discarded. -/
theorem stx_step (rest : List Nat) (st : RSt) (hx : st.expectAck = false) :
    receiveLoop (STX :: rest) st = receiveLoop rest { st with inPacket := true } ∧
    ({ st with inPacket := true } : RSt).packet = st.packet := by
  constructor
  · simp [receiveLoop, hx]
  · rfl

/-- Witness for stx_step at the initial receiver state. -/
theorem stx_step_w :
    receiveLoop [STX] recvStart = receiveLoop [] { recvStart with inPacket := true } ∧
    ({ recvStart with inPacket := true } : RSt).packet = recvStart.packet :=
  stx_step [] recvStart rfl

/-- Claim C5 counterexample: an end-of-packet byte received in the IDLE
initial state is not discarded: a NAK is sent and the retry budget drops
from 5 to 4; and a non-marker byte received while IDLE raises TypeError
(from the percent-formatting in the diagnostic call) instead of being
discarded. -/
theorem idle_bytes_not_discarded :
    (receive_packet [ETX]).1.sent = [NAK] ∧
    (receive_packet [ETX]).1.retries = 4 ∧
    (receive_packet [0x41]).2 = RcvRes.typeError ∧
    ¬((receive_packet [ETX]).1.sent = [] ∧ (receive_packet [ETX]).1.retries = 5) := by
  decide

/-- Claim C5 amended: while IDLE, a byte that is no marker at all makes
the attempted diagnostic log raise TypeError (the discard is never
reached), and an end-of-packet byte triggers a packet-validation attempt
even though no packet is open, sending a NAK and consuming retry budget
(when the working buffer is empty the validation necessarily fails). -/
theorem idle_byte_step :
    (∀ (b : Nat) (rest : List Nat) (st : RSt),
       st.expectAck = false → st.inPacket = false → b ≠ STX → b ≠ ETX → b ≠ EOT →
       receiveLoop (b :: rest) st = (st, RcvRes.typeError)) ∧
    (∀ (rest : List Nat) (st : RSt),
       st.expectAck = false → st.packet = [] → st.retries ≠ 0 →
       receiveLoop (ETX :: rest) st = receiveLoop rest (failState st)) := by
  constructor
  · intro b rest st hx hp h2 h3 h4
    simp only [STX, ETX, EOT] at h2 h3 h4
    simp [receiveLoop, hx, hp, h2, h3, h4, STX, ETX, EOT]
  · intro rest st hx hpk hr
    have hv : validatePacket st.packet = none := by rw [hpk]; decide
    simp [receiveLoop, hx, hv, hr, STX, ETX, EOT]

/-- Witness for idle_byte_step at concrete bytes and the initial state. -/
theorem idle_byte_step_w :
    receiveLoop [0x41] recvStart = (recvStart, RcvRes.typeError) ∧
    receiveLoop [ETX] recvStart = receiveLoop [] (failState recvStart) :=
  ⟨idle_byte_step.1 0x41 [] recvStart rfl rfl (by decide) (by decide) (by decide),
   idle_byte_step.2 [] recvStart rfl rfl (by decide)⟩

/-- Claim C6 counterexample: get_readings(1, 0) is not rejected: the
full handshake byte stream (opcode, separator, the digit of 1,
separator, the digit of 0, carriage return) is handed to the transport. -/
theorem readings_no_rejection :
    get_readings_sent 1 0 = [0x61, TAB, 0x31, TAB, 0x30, CR] ∧
    get_readings_sent 1 0 ≠ [] := by decide

/-- Claim C6 amended: get_readings validates nothing: for every pair of
indices, end smaller than start included, the command handshake bytes
are transmitted, beginning with the GET_READINGS opcode. -/
theorem readings_always_handshake (s e : Nat) :
    (get_readings_sent s e).head? = some 0x61 := rfl

/-- Claim C1 counterexample: on the block with raw glucose "100", time
digits "120000", date digits "200101" and flags "00", decoding raises
ValueError (the format string has no seconds directive, so the 12-digit
concatenation cannot match), and the glucose conversion of raw 100
yields the Decimal 5.5, not 5.6 (100 times the binary64 literal 0.0555
is just below 5.55, and half-even quantization rounds down). -/
theorem readings_six_time_digits_fail :
    decode_reading ([0x31, 0x30, 0x30] ++ [TAB] ++
        [0x31, 0x32, 0x30, 0x30, 0x30, 0x30] ++ [TAB] ++
        [0x32, 0x30, 0x30, 0x31, 0x30, 0x31] ++ [TAB] ++ [0x30, 0x30]) =
      .error .valueError ∧
    pyGlucose 100 = mkRat 11 2 ∧ mkRat 11 2 ≠ mkRat 28 5 := by decide

/-- Claim C1 amended: the timestamp format is HHMM plus yymmdd (no
seconds), and the glucose quantization of raw 100 gives 5.5: a block
with raw glucose "100", time digits "1200", date digits "200101" and
flags "00" decodes to glucose 5.5, timestamp 2020-01-01T12:00:00 and
flags 0, while six time digits make the decode raise ValueError. -/
theorem readings_block_decode :
    decode_reading ([0x31, 0x30, 0x30] ++ [TAB] ++ [0x31, 0x32, 0x30, 0x30] ++ [TAB] ++
        [0x32, 0x30, 0x30, 0x31, 0x30, 0x31] ++ [TAB] ++ [0x30, 0x30]) =
      .ok { glucose := mkRat 11 2,
            timestamp := { year := 2020, month := 1, day := 1,
                           hour := 12, minute := 0, second := 0 },
            flags := 0 } := by decide

/-- Claim C3 counterexample: with a line that answers ACK to every read,
the framed packet is transmitted five times (once per budget unit), not
once, so an ACK does not exit the retry loop; and on a byte that is
neither ACK nor NAK the sender transmits no NAK at all: the diagnostic
formatting raises TypeError first. -/
theorem send_packet_ack_retransmits :
    (send_packet [[0x41]] [ACK, ACK, ACK, ACK, ACK, ACK]).sends.count
        (packetBytes [[0x41]]) = 5 ∧
    (5 : Nat) ≠ 1 ∧
    (send_packet [[0x41]] [ACK, ACK, ACK, ACK, ACK, ACK]).result = .ok true ∧
    (send_packet [[0x41]] [0x00]).sends = [packetBytes [[0x41]]] ∧
    (send_packet [[0x41]] [0x00]).result = .error .typeError := by decide

/-- Claim C3 amended: in the send loop, reading an ACK makes the sender
transmit an application-level ACK and CONTINUE the loop (the packet is
retransmitted while budget remains; only budget exhaustion ends this
path), and reading a byte that is neither ACK nor NAK raises TypeError
from the diagnostic formatting before any NAK could be sent. -/
theorem send_loop_ack_continues (pkt : List Nat) (r : Nat) (rest : List Nat)
    (acc : List (List Nat)) (h : pkt ≠ []) :
    (sendLoop pkt (r + 1) (ACK :: rest) acc = sendLoop pkt r rest (acc ++ [pkt, [ACK]])) ∧
    (∀ b, b ≠ ACK → b ≠ NAK →
      sendLoop pkt (r + 1) (b :: rest) acc = (acc ++ [pkt], .error .typeError)) := by
  constructor
  · simp [sendLoop, h, ACK, NAK]
  · intro b hb hn
    simp only [ACK, NAK] at hb hn
    simp [sendLoop, h, hb, hn, ACK, NAK]

/-- Witness for send_loop_ack_continues at a concrete packet and line. -/
theorem send_loop_ack_continues_w :
    (sendLoop [STX] 1 [ACK] [] = sendLoop [STX] 0 [] ([] ++ [[STX], [ACK]])) ∧
    sendLoop [STX] 1 [0x00] [] = ([] ++ [[STX]], .error .typeError) :=
  ⟨(send_loop_ack_continues [STX] 0 [] [] (by decide)).1,
   (send_loop_ack_continues [STX] 0 [] [] (by decide)).2 0x00 (by decide) (by decide)⟩

lemma failState_count_nak (st : RSt) (hr : ¬st.retries = 0) :
    (failState st).sent.count NAK = st.sent.count NAK + 1 ∧
    (failState st).retries = st.retries - 1 ∧
    (failState st).fails = st.fails + 1 := by
  simp [failState, hr, List.count_append]

lemma failState_zero (st : RSt) (hr : st.retries = 0) :
    (failState st).sent = st.sent ∧ (failState st).fails = st.fails + 1 := by
  simp [failState, hr]

lemma count_nak_snoc_ack (l : List Nat) : (l ++ [ACK]).count NAK = l.count NAK := by
  rw [List.count_append]
  have h : List.count NAK [ACK] = 0 := by decide
  omega

/-- The per-call retry accounting of _receive_packet: if the NAK count
plus the remaining budget is 5 and every caught failure so far has sent
a NAK, then a None return happens only with exactly 5 NAKs sent and a
sixth caught failure. -/
lemma receiveLoop_noResult_inv (input : List Nat) :
    ∀ st : RSt, st.sent.count NAK + st.retries = 5 → st.fails = st.sent.count NAK →
      (receiveLoop input st).2 = RcvRes.noResult →
      (receiveLoop input st).1.sent.count NAK = 5 ∧ (receiveLoop input st).1.fails = 6 := by
  induction input with
  | nil =>
    intro st h1 h2 hres
    by_cases hx : st.expectAck = true
    · by_cases hr : st.retries = 0
      · have heq : receiveLoop [] st = (failState st, RcvRes.noResult) := by
          simp [receiveLoop, hx, hr]
        rw [heq]
        show (failState st).sent.count NAK = 5 ∧ (failState st).fails = 6
        obtain ⟨hs, hf⟩ := failState_zero st hr
        rw [hs, hf]
        omega
      · have heq : receiveLoop [] st = (failState st, RcvRes.timeout) := by
          simp [receiveLoop, hx, hr]
        rw [heq] at hres
        exact absurd hres (by simp)
    · have heq : receiveLoop [] st = (st, RcvRes.timeout) := by
        simp [receiveLoop, hx]
      rw [heq] at hres
      exact absurd hres (by simp)
  | cons b rest ih =>
    intro st h1 h2 hres
    by_cases hx : st.expectAck = true
    · by_cases hb : b = ACK
      · have heq : receiveLoop (b :: rest) st = (st, RcvRes.ok st.blocks) := by
          simp [receiveLoop, hx, hb]
        rw [heq] at hres
        exact absurd hres (by simp)
      · by_cases hr : st.retries = 0
        · have heq : receiveLoop (b :: rest) st = (failState st, RcvRes.noResult) := by
            simp [receiveLoop, hx, hb, hr]
          rw [heq]
          show (failState st).sent.count NAK = 5 ∧ (failState st).fails = 6
          obtain ⟨hs, hf⟩ := failState_zero st hr
          rw [hs, hf]
          omega
        · have heq : receiveLoop (b :: rest) st = receiveLoop rest (failState st) := by
            simp [receiveLoop, hx, hb, hr]
          rw [heq] at hres ⊢
          obtain ⟨hc, hrr, hf⟩ := failState_count_nak st hr
          exact ih (failState st) (by omega) (by omega) hres
    · by_cases hstx : b = STX
      · have heq : receiveLoop (b :: rest) st =
            receiveLoop rest { st with inPacket := true } := by
          simp [receiveLoop, hx, hstx]
        rw [heq] at hres ⊢
        exact ih _ h1 h2 hres
      · by_cases hme : b = ETX ∨ b = EOT
        · cases hv : validatePacket st.packet with
          | some data =>
            by_cases he : b = EOT
            · have heq : receiveLoop (b :: rest) st =
                  receiveLoop rest
                    { st with blocks := st.blocks ++ [stripSep data],
                              sent := st.sent ++ [ACK], expectAck := true } := by
                simp [receiveLoop, hx, hstx, hme, hv, he, STX, ETX, EOT, ACK]
              rw [heq] at hres ⊢
              refine ih _ ?_ ?_ hres
              · show (st.sent ++ [ACK]).count NAK + st.retries = 5
                rw [count_nak_snoc_ack]
                exact h1
              · show st.fails = (st.sent ++ [ACK]).count NAK
                rw [count_nak_snoc_ack]
                exact h2
            · have hetx : b = ETX := hme.resolve_right he
              have heq : receiveLoop (b :: rest) st =
                  receiveLoop rest
                    { st with packet := [], inPacket := false,
                              blocks := st.blocks ++ [stripSep data],
                              sent := st.sent ++ [ACK] } := by
                simp [receiveLoop, hx, hstx, hv, hetx, STX, ETX, EOT, ACK]
              rw [heq] at hres ⊢
              refine ih _ ?_ ?_ hres
              · show (st.sent ++ [ACK]).count NAK + st.retries = 5
                rw [count_nak_snoc_ack]
                exact h1
              · show st.fails = (st.sent ++ [ACK]).count NAK
                rw [count_nak_snoc_ack]
                exact h2
          | none =>
            by_cases hr : st.retries = 0
            · have heq : receiveLoop (b :: rest) st = (failState st, RcvRes.noResult) := by
                simp [receiveLoop, hx, hstx, hme, hv, hr]
              rw [heq]
              show (failState st).sent.count NAK = 5 ∧ (failState st).fails = 6
              obtain ⟨hs, hf⟩ := failState_zero st hr
              rw [hs, hf]
              omega
            · have heq : receiveLoop (b :: rest) st = receiveLoop rest (failState st) := by
                simp [receiveLoop, hx, hstx, hme, hv, hr]
              rw [heq] at hres ⊢
              obtain ⟨hc, hrr, hf⟩ := failState_count_nak st hr
              exact ih (failState st) (by omega) (by omega) hres
        · by_cases hp : st.inPacket = true
          · have heq : receiveLoop (b :: rest) st =
                receiveLoop rest { st with packet := st.packet ++ [b] } := by
              simp [receiveLoop, hx, hstx, hme, hp]
            rw [heq] at hres ⊢
            exact ih _ h1 h2 hres
          · have heq : receiveLoop (b :: rest) st = (st, RcvRes.typeError) := by
              simp [receiveLoop, hx, hstx, hme, hp]
            rw [heq] at hres
            exact absurd hres (by simp)

/-- Claim C2 amended: whenever a _receive_packet call returns without a
result, exactly 5 NAKs were sent and exactly 6 validation attempts
failed: a NAK is sent for each of the first five failures only, and the
sixth failure finds the budget exhausted and returns with no NAK of its
own (so the operation does not retry beyond the budget, but neither does
it return at the moment the fifth NAK is sent). -/
theorem receive_noResult_five_naks (input : List Nat) (st' : RSt)
    (h : receive_packet input = (st', RcvRes.noResult)) :
    st'.sent.count NAK = 5 ∧ st'.fails = 6 := by
  have hsnd : (receiveLoop input recvStart).2 = RcvRes.noResult := by
    have := congrArg Prod.snd h
    simpa [receive_packet] using this
  have hfst : (receiveLoop input recvStart).1 = st' := by
    have := congrArg Prod.fst h
    simpa [receive_packet] using this
  have := receiveLoop_noResult_inv input recvStart (by decide) (by decide) hsnd
  rwa [hfst] at this

/-- Witness for receive_noResult_five_naks on a line of six bad frames. -/
theorem receive_noResult_five_naks_w :
    ({ packet := [], inPacket := false, retries := 0, blocks := [],
       sent := [NAK, NAK, NAK, NAK, NAK], fails := 6, expectAck := false } : RSt).sent.count
        NAK = 5 ∧
    ({ packet := [], inPacket := false, retries := 0, blocks := [],
       sent := [NAK, NAK, NAK, NAK, NAK], fails := 6, expectAck := false } : RSt).fails = 6 :=
  receive_noResult_five_naks [ETX, ETX, ETX, ETX, ETX, ETX]
    { packet := [], inPacket := false, retries := 0, blocks := [],
      sent := [NAK, NAK, NAK, NAK, NAK], fails := 6, expectAck := false } (by decide)

/-- Claim C2 counterexample: on a line of six bad frames every
validation attempt fails, yet only 5 NAKs are sent for the 6 failed
attempts (the sixth failure sends no NAK), so the receiver does not send
a NAK for each failed attempt. -/
theorem receive_six_failures_five_naks :
    (receive_packet [ETX, ETX, ETX, ETX, ETX, ETX]).2 = RcvRes.noResult ∧
    (receive_packet [ETX, ETX, ETX, ETX, ETX, ETX]).1.fails = 6 ∧
    (receive_packet [ETX, ETX, ETX, ETX, ETX, ETX]).1.sent.count NAK = 5 ∧
    (5 : Nat) ≠ 6 := by decide

/-- Claim C7: the handshake returns True exactly when the response byte
is ACK; but a response byte that is neither ACK nor NAK is not logged
and swallowed: the diagnostic formatting itself raises TypeError (shown
here on response byte 0x07 after the GET_AND_CLEAR_STATUS echo). -/
theorem send_command_ack_only :
    (∀ (cmd : List Nat) (fields : List (List Nat)) (stream : List Nat),
       (send_command cmd fields stream).result = .ok true ↔
         respByte cmd fields stream = some ACK) ∧
    (send_command [0x0B] [] [0x0B, 0x07]).result = .error .typeError := by
  constructor
  · intro cmd fields stream
    cases h : (stream.drop (joinCmd cmd fields).length).head? with
    | none => simp [send_command, respByte, h]
    | some b =>
      by_cases hb : b = ACK
      · simp [send_command, respByte, h, hb]
      · by_cases hn : b = NAK
        · simp [send_command, respByte, h, hb, hn, ACK, NAK]
        · simp [send_command, respByte, h, hb, hn]
  · decide

/-- Claim C10: in every facade read operation, an ACK handshake followed
by a receiver that exhausts its budget and returns None leads to an
unhandled TypeError (subscripting or iterating None), not to a returned
no-data value: shown for the shared single-block pattern of the eight
scalar getters and for get_readings. -/
theorem facade_no_data_unhandled :
    (∀ (cmd : List Nat) (fields : List (List Nat)) (stream : List Nat),
       (send_command cmd fields stream).result = .ok true →
       (receive_packet (send_command cmd fields stream).rest).2 = RcvRes.noResult →
       facadeFirstBlock cmd fields stream = .error .typeError) ∧
    (∀ (s e : Nat) (stream : List Nat),
       (send_command [0x61] [natDigits s, natDigits e] stream).result = .ok true →
       (receive_packet (send_command [0x61] [natDigits s, natDigits e] stream).rest).2 =
         RcvRes.noResult →
       get_readings s e stream = .error .typeError) := by
  constructor
  · intro cmd fields stream h1 h2
    have hpair : receive_packet (send_command cmd fields stream).rest =
        ((receive_packet (send_command cmd fields stream).rest).1, RcvRes.noResult) := by
      rw [← h2]
    rw [facadeFirstBlock]
    rw [h1, hpair]
  · intro s e stream h1 h2
    have hpair : receive_packet (send_command [0x61] [natDigits s, natDigits e] stream).rest =
        ((receive_packet
            (send_command [0x61] [natDigits s, natDigits e] stream).rest).1,
          RcvRes.noResult) := by
      rw [← h2]
    rw [get_readings]
    rw [h1, hpair]

/-- Witness for facade_no_data_unhandled: an ACKed handshake followed by
six bad frames on the line. -/
theorem facade_no_data_unhandled_w :
    facadeFirstBlock [0x0B] [] [0x0B, ACK, ETX, ETX, ETX, ETX, ETX, ETX] =
      .error .typeError ∧
    get_readings 1 2 [0x61, TAB, 0x31, TAB, 0x32, ACK, ETX, ETX, ETX, ETX, ETX, ETX] =
      .error .typeError :=
  ⟨facade_no_data_unhandled.1 [0x0B] [] [0x0B, ACK, ETX, ETX, ETX, ETX, ETX, ETX]
      (by decide) (by decide),
   facade_no_data_unhandled.2 1 2 [0x61, TAB, 0x31, TAB, 0x32, ACK, ETX, ETX, ETX, ETX, ETX, ETX]
      (by decide) (by decide)⟩

/-- Claim C8: set_current_time never reaches the encoding, the handshake
or the Packet Sender: its first statement looks up the attribute value
on the class time, which does not exist, so every call raises
AttributeError (unlike set_current_date, which strftime-encodes the
value and sends it). -/
theorem set_time_attribute_error :
    ∀ v : PyTime, set_current_time v = .error .attributeError :=
  fun _ => rfl
